import Mathlib

/-!
Shallow embedding of the ticket-classification core of the repository
(source file given as `src/unnamed/part_003`): the Reconciler
(`determineFinalRecommendation`), the Similarity Classifier
(`findSimilarTickets`), the Pattern Classifier (`classifyWithOpenAI`) and
the `POST` request handler.

Numbers the JavaScript source manipulates are modelled as exact rationals;
`Math.round` is modelled as `mathRound` below.  External collaborators
(Supabase RPC calls, the OpenAI client, the JavaScript `JSON.parse`
builtin) are modelled as explicit outcome values or functions supplied in
an environment record, so each translated function is a pure, total Lean
function of its arguments and that environment; a JavaScript `throw` that
the translated function does not itself catch is an `Except.error` value.
-/

/-- One scored group inside the pattern classifier's JSON answer:
name, confidence and reasoning.  Confidence is an exact rational. -/
structure GroupScore where
  name : String
  confidence : ℚ
  reasoning : String
  deriving DecidableEq

/-- The pattern classifier's `ClassificationResult` shape: a primary group
plus a list of alternative groups (spec section 3). -/
structure ClassificationResult where
  primaryGroup : GroupScore
  alternativeGroups : List GroupScore
  deriving DecidableEq

/-- One entry of the similarity classifier's result list: group name,
derived confidence, and raw neighbor count (part_003 lines 365-373). -/
structure SimilarityMatch where
  name : String
  confidence : ℚ
  count : ℕ
  deriving DecidableEq

/-- The reconciler's output shape (part_003 lines 452-511). -/
structure FinalRecommendation where
  group : String
  confidence : ℚ
  source : String
  reasoning : String
  deriving DecidableEq

/-- JavaScript `Math.round` on an exact rational: round half toward
positive infinity. -/
def mathRound (x : ℚ) : ℤ := ⌊x + 1 / 2⌋

/-- Translation of `determineFinalRecommendation` (part_003 lines 448-512),
the Reconciler: combines the pattern classifier's result with the
similarity classifier's result list. -/
def determineFinalRecommendation (openAIResult : ClassificationResult)
    (vectorResults : List SimilarityMatch) : FinalRecommendation :=
  match vectorResults with
  | [] =>
    { group := openAIResult.primaryGroup.name
      confidence := openAIResult.primaryGroup.confidence
      source := "pattern-based"
      reasoning := openAIResult.primaryGroup.reasoning }
  | top :: _ =>
    let openAIPrimary := openAIResult.primaryGroup.name
    let vectorPrimary := top.name
    if openAIPrimary = vectorPrimary then
      let combinedConfidence :=
        mathRound (openAIResult.primaryGroup.confidence * 0.4 + top.confidence * 0.6)
      { group := openAIPrimary
        confidence := (combinedConfidence : ℚ)
        source := "combined"
        reasoning := "Both pattern analysis and historical data agree on this group. Based on " ++
          toString top.count ++ " similar historical tickets." }
    else
      match vectorResults.find? (fun r => r.name == openAIPrimary) with
      | some matchingVectorResult =>
        { group := openAIPrimary
          confidence := (mathRound (openAIResult.primaryGroup.confidence * 0.7 +
            matchingVectorResult.confidence * 0.3) : ℚ)
          source := "pattern-weighted"
          reasoning := "Pattern analysis suggests this group, with some support from historical data (" ++
            toString matchingVectorResult.count ++ " similar tickets)." }
      | none =>
        if top.confidence > 70 then
          { group := vectorPrimary
            confidence := top.confidence
            source := "history-weighted"
            reasoning := "Based primarily on " ++ toString top.count ++
              " similar historical tickets that were assigned to this group." }
        else
          { group := openAIPrimary
            confidence := min openAIResult.primaryGroup.confidence 70
            source := "pattern-based"
            reasoning := openAIResult.primaryGroup.reasoning ++
              " (Note: Historical data suggests different groups.)" }

/-- C1: if the similarity results list is empty, the Reconciler returns the
pattern classifier's primary group, confidence and reasoning verbatim,
with source "pattern-based". -/
theorem reconciler_empty_similarity_pattern_verbatim (p : ClassificationResult) :
    determineFinalRecommendation p [] =
      { group := p.primaryGroup.name
        confidence := p.primaryGroup.confidence
        source := "pattern-based"
        reasoning := p.primaryGroup.reasoning } := rfl

/-- C2: if the pattern primary group name equals the top similarity match's
name, the Reconciler returns that group with confidence
round(pattern confidence x 0.4 + top similarity confidence x 0.6), source
"combined", and a reasoning string citing the top match's neighbor count. -/
theorem reconciler_agreement_combined (p : ClassificationResult)
    (top : SimilarityMatch) (rest : List SimilarityMatch)
    (h : p.primaryGroup.name = top.name) :
    determineFinalRecommendation p (top :: rest) =
      { group := p.primaryGroup.name
        confidence := (mathRound (p.primaryGroup.confidence * 0.4 + top.confidence * 0.6) : ℚ)
        source := "combined"
        reasoning := "Both pattern analysis and historical data agree on this group. Based on " ++
          toString top.count ++ " similar historical tickets." } := by
  simp [determineFinalRecommendation, h]

/-- Witness for C2: the spec's own example, pattern Security 70 and top
similarity match Security 90 with 9 neighbors, blends to 82. -/
theorem reconciler_agreement_combined_witness :
    determineFinalRecommendation
        { primaryGroup := { name := "Security", confidence := 70, reasoning := "sig" }
          alternativeGroups := [] }
        [{ name := "Security", confidence := 90, count := 9 }] =
      { group := "Security", confidence := 82, source := "combined"
        reasoning := "Both pattern analysis and historical data agree on this group. Based on 9 similar historical tickets." } := by
  rw [reconciler_agreement_combined
    { primaryGroup := { name := "Security", confidence := 70, reasoning := "sig" }
      alternativeGroups := [] }
    { name := "Security", confidence := 90, count := 9 } [] rfl]
  norm_num [mathRound]
  rfl

/-- C3: if the pattern primary differs from the top similarity match but
occurs further down the similarity list, the Reconciler returns the pattern
primary with confidence round(pattern confidence x 0.7 + matching entry
confidence x 0.3) and source "pattern-weighted".  The matching entry is
the first list entry whose name equals the pattern primary name, exactly as
the source's `vectorResults.find` selects it. -/
theorem reconciler_pattern_weighted (p : ClassificationResult)
    (top : SimilarityMatch) (rest : List SimilarityMatch) (m : SimilarityMatch)
    (hne : p.primaryGroup.name ≠ top.name)
    (hfind : (top :: rest).find? (fun r => r.name == p.primaryGroup.name) = some m) :
    determineFinalRecommendation p (top :: rest) =
      { group := p.primaryGroup.name
        confidence := (mathRound (p.primaryGroup.confidence * 0.7 + m.confidence * 0.3) : ℚ)
        source := "pattern-weighted"
        reasoning := "Pattern analysis suggests this group, with some support from historical data (" ++
          toString m.count ++ " similar tickets)." } := by
  simp [determineFinalRecommendation, hne, hfind]

/-- Witness for C3: the spec's own example, pattern Desktop Support 60
against similarity list Email and Collaboration 75 then Desktop Support 40,
blends to 54, source "pattern-weighted". -/
theorem reconciler_pattern_weighted_witness :
    determineFinalRecommendation
        { primaryGroup := { name := "Desktop Support", confidence := 60, reasoning := "rd" }
          alternativeGroups := [] }
        [{ name := "Email & Collaboration", confidence := 75, count := 5 },
         { name := "Desktop Support", confidence := 40, count := 2 }] =
      { group := "Desktop Support", confidence := 54, source := "pattern-weighted"
        reasoning := "Pattern analysis suggests this group, with some support from historical data (2 similar tickets)." } := by
  rw [reconciler_pattern_weighted
    { primaryGroup := { name := "Desktop Support", confidence := 60, reasoning := "rd" }
      alternativeGroups := [] }
    { name := "Email & Collaboration", confidence := 75, count := 5 }
    [{ name := "Desktop Support", confidence := 40, count := 2 }]
    { name := "Desktop Support", confidence := 40, count := 2 }
    (by decide) (by decide)]
  norm_num [mathRound]
  rfl

/-- C4: full disagreement: the pattern primary occurs nowhere in the
similarity list.  If the top similarity confidence exceeds 70 the Reconciler
returns the top similarity group and confidence verbatim with source
"history-weighted"; otherwise it returns the pattern primary with
confidence capped at min(pattern confidence, 70), source "pattern-based",
and the pattern reasoning with a note that history suggests otherwise. -/
theorem reconciler_full_disagreement (p : ClassificationResult)
    (top : SimilarityMatch) (rest : List SimilarityMatch)
    (habs : ∀ r ∈ top :: rest, r.name ≠ p.primaryGroup.name) :
    (70 < top.confidence →
      determineFinalRecommendation p (top :: rest) =
        { group := top.name
          confidence := top.confidence
          source := "history-weighted"
          reasoning := "Based primarily on " ++ toString top.count ++
            " similar historical tickets that were assigned to this group." }) ∧
    (top.confidence ≤ 70 →
      determineFinalRecommendation p (top :: rest) =
        { group := p.primaryGroup.name
          confidence := min p.primaryGroup.confidence 70
          source := "pattern-based"
          reasoning := p.primaryGroup.reasoning ++
            " (Note: Historical data suggests different groups.)" }) := by
  have hne : p.primaryGroup.name ≠ top.name :=
    fun h => habs top (List.mem_cons_self _ _) h.symm
  have hfind : (top :: rest).find? (fun r => r.name == p.primaryGroup.name) = none := by
    rw [List.find?_eq_none]
    intro r hr
    simpa using habs r hr
  refine ⟨fun hgt => ?_, fun hle => ?_⟩
  · simp [determineFinalRecommendation, hne, hfind, hgt]
  · simp [determineFinalRecommendation, hne, hfind, not_lt.mpr hle]

/-- Witness for C4: the spec's own example, pattern Application Support 50
against a disjoint similarity list headed by Database Administration 85,
yields Database Administration 85, source "history-weighted". -/
theorem reconciler_full_disagreement_witness :
    determineFinalRecommendation
        { primaryGroup := { name := "Application Support", confidence := 50, reasoning := "ra" }
          alternativeGroups := [] }
        [{ name := "Database Administration", confidence := 85, count := 8 }] =
      { group := "Database Administration", confidence := 85, source := "history-weighted"
        reasoning := "Based primarily on 8 similar historical tickets that were assigned to this group." } :=
  (reconciler_full_disagreement
    { primaryGroup := { name := "Application Support", confidence := 50, reasoning := "ra" }
      alternativeGroups := [] }
    { name := "Database Administration", confidence := 85, count := 8 } []
    (by decide)).1 (by norm_num)

/-- C9: the group the Reconciler emits always comes from its inputs'
vocabularies: it is the pattern primary group name or the name of one of
the similarity result entries. -/
theorem reconciler_group_from_inputs (p : ClassificationResult)
    (s : List SimilarityMatch) :
    (determineFinalRecommendation p s).group = p.primaryGroup.name ∨
      (determineFinalRecommendation p s).group ∈ s.map SimilarityMatch.name := by
  match s with
  | [] => exact Or.inl rfl
  | top :: rest =>
    by_cases h : p.primaryGroup.name = top.name
    · exact Or.inl (by simp [determineFinalRecommendation, h])
    · rcases hf : (top :: rest).find? (fun r => r.name == p.primaryGroup.name) with _ | m
      · by_cases hc : (70 : ℚ) < top.confidence
        · refine Or.inr ?_
          have : (determineFinalRecommendation p (top :: rest)).group = top.name := by
            simp [determineFinalRecommendation, h, hf, hc]
          rw [this]
          exact List.mem_map_of_mem _ (List.mem_cons_self _ _)
        · exact Or.inl (by simp [determineFinalRecommendation, h, hf, hc])
      · exact Or.inl (by simp [determineFinalRecommendation, h, hf])

/-- Outcome of one Supabase client call as the source observes it: the call
may throw a JavaScript exception, resolve with an error object carrying a
message, or resolve with data. -/
inductive CallOutcome (α : Type) where
  | throws : String → CallOutcome α
  | errs : String → CallOutcome α
  | ok : α → CallOutcome α
  deriving DecidableEq

/-- Outcome of one OpenAI client call: the client throws on failure. -/
inductive ProviderOutcome (α : Type) where
  | throws : String → ProviderOutcome α
  | ok : α → ProviderOutcome α
  deriving DecidableEq

/-- One row returned by the match_tickets RPC; the source reads only its
assigned_group field (part_003 lines 357-362). -/
structure HistoryTicket where
  assigned_group : Option String
  deriving DecidableEq

/-- The similarity classifier's return shape (part_003 lines 275-390):
success flag, ranked group results, an error reason when degraded, and the
raw similar tickets list. -/
structure SimilarityOutcome where
  success : Bool
  results : List SimilarityMatch
  error : Option String
  similarTickets : List HistoryTicket
  deriving DecidableEq

/-- A degraded similarity outcome: success false, no results, a reason. -/
def SimilarityOutcome.degraded (reason : String) : SimilarityOutcome :=
  { success := false, results := [], error := some reason, similarTickets := [] }

/-- Behavior of the external collaborators during one findSimilarTickets
call, in the order the source consults them: the ticket_history count
query, the check_vector_extension / create_vector_extension RPCs, the
check_embedding_column / add_embedding_column RPCs, the rows-with-embedding
probe, the embedding provider, and the match_tickets RPC. -/
structure SimilarityEnv where
  tableCheck : CallOutcome ℕ
  checkVectorExtension : CallOutcome Unit
  createVectorExtension : CallOutcome Unit
  checkEmbeddingColumn : CallOutcome Unit
  addEmbeddingColumn : CallOutcome Unit
  embeddingCheck : CallOutcome (List ℕ)
  embed : String → ProviderOutcome (List ℚ)
  matchTickets : CallOutcome (List HistoryTicket)

/-- JavaScript truthiness of the assigned_group field as the loop at
part_003 line 358 tests it: null, undefined and the empty string are
falsy. -/
def HistoryTicket.truthyGroup (t : HistoryTicket) : Option String :=
  match t.assigned_group with
  | some g => if g = "" then none else some g
  | none => none

/-- Increment group g in an association list of counts that records the
insertion order of keys: the JavaScript statement
groupCounts[g] = (groupCounts[g] || 0) + 1 on a plain object.  The
enumeration order of the finished object is not plain insertion order;
jsEntries below applies the ECMAScript OwnPropertyKeys rule to it. -/
def bumpCount : List (String × ℕ) → String → List (String × ℕ)
  | [], g => [(g, 1)]
  | (g0, c) :: rest, g =>
    if g0 = g then (g0, c + 1) :: rest else (g0, c) :: bumpCount rest g

/-- The forEach loop of part_003 lines 357-362: tally truthy group labels
into groupCounts and count the labeled tickets into totalMatches. -/
def tallyTickets (tickets : List HistoryTicket) : List (String × ℕ) × ℕ :=
  tickets.foldl
    (fun st t =>
      match t.truthyGroup with
      | some g => (bumpCount st.1 g, st.2 + 1)
      | none => st)
    ([], 0)

/-- Structural decimal parse of a character list: some value when every
character is a decimal digit (also on the empty list, which the canonicity
check below rejects). -/
def digitsVal : List Char → ℕ → Option ℕ
  | [], acc => some acc
  | c :: cs, acc =>
    if c.isDigit then digitsVal cs (acc * 10 + (c.toNat - 48)) else none

/-- The numeric value of a JavaScript array-index property key: a string
that is the canonical decimal representation of a natural number below
2^32 - 1 (so non-empty, no leading zeros, no sign); none for every other
string. -/
def arrayIndexOf? (s : String) : Option ℕ :=
  match digitsVal s.data 0 with
  | some n => if toString n = s ∧ n < 4294967295 then some n else none
  | none => none

/-- Whether a JavaScript object key is an array-index key. -/
def isArrayIndexKey (s : String) : Bool := (arrayIndexOf? s).isSome

/-- Ascending numeric order on array-index keys, the order in which
ECMAScript enumerates them; on non-index keys (never compared by
jsEntries) it defaults their value to 0. -/
def idxKeyLe (a b : String × ℕ) : Bool :=
  decide ((arrayIndexOf? a.1).getD 0 ≤ (arrayIndexOf? b.1).getD 0)

/-- The enumeration order of Object.entries (and for-in) on a plain
JavaScript object, per the ECMAScript OwnPropertyKeys rule: array-index
keys first, in ascending numeric order, then the remaining string keys in
insertion order. -/
def jsEntries (counts : List (String × ℕ)) : List (String × ℕ) :=
  (counts.filter (fun pr => isArrayIndexKey pr.1)).mergeSort idxKeyLe ++
    counts.filter (fun pr => !isArrayIndexKey pr.1)

/-- The sort order of the comparator at part_003 line 376,
(a, b) => b.confidence - a.confidence: a comes no later than b when
b.confidence <= a.confidence, that is, descending confidence. -/
def confDesc (a b : SimilarityMatch) : Bool := decide (b.confidence ≤ a.confidence)

/-- Lines 352-378 of part_003 given the rows the match_tickets RPC
returned: tally the groups, read the tally out in the Object.entries
enumeration order (jsEntries), derive each group's confidence as
Math.round((count / totalMatches) * 100), and sort descending by
confidence.  JavaScript Array.prototype.sort is stable and the comparator
is b.confidence - a.confidence, so the result is the stable merge sort
below under confDesc. -/
def rankGroups (similarTickets : List HistoryTicket) : List SimilarityMatch :=
  let st := tallyTickets similarTickets
  let groupConfidence := (jsEntries st.1).map (fun pr =>
    { name := pr.1
      confidence := ((mathRound ((pr.2 : ℚ) / (st.2 : ℚ) * 100) : ℤ) : ℚ)
      count := pr.2 })
  groupConfidence.mergeSort confDesc

/-- Lines 336-382 of part_003: embed the query text and call the
match_tickets RPC inside the inner try; an exception from the embedding
provider escapes to the outer catch, an exception from the RPC is caught by
the inner catch. -/
def similaritySearchStage (subject description : String) (env : SimilarityEnv) :
    Except String SimilarityOutcome :=
  match env.embed ((subject ++ " " ++ description).trim) with
  | .throws m => .error m
  | .ok _ =>
    match env.matchTickets with
    | .throws _ => .ok (.degraded "Vector similarity search failed")
    | .errs m => .ok (.degraded m)
    | .ok similarTickets =>
      .ok { success := true
            results := rankGroups similarTickets
            error := none
            similarTickets := similarTickets }

/-- Lines 319-334 of part_003: probe for rows that already carry an
embedding; degrade when the probe errs or finds none. -/
def embeddingRowsStage (subject description : String) (env : SimilarityEnv) :
    Except String SimilarityOutcome :=
  match env.embeddingCheck with
  | .throws m => .error m
  | .errs _ => .ok (.degraded "Could not check for embeddings")
  | .ok rows =>
    if rows.isEmpty then .ok (.degraded "No tickets with embeddings")
    else similaritySearchStage subject description env

/-- Lines 306-317 of part_003: check the embedding column, self-heal once;
only a thrown add_embedding_column call degrades, an error object from it
is ignored and the flow continues. -/
def embeddingColumnStage (subject description : String) (env : SimilarityEnv) :
    Except String SimilarityOutcome :=
  match env.checkEmbeddingColumn with
  | .throws m => .error m
  | .errs _ =>
    match env.addEmbeddingColumn with
    | .throws _ => .ok (.degraded "Embedding column could not be created")
    | _ => embeddingRowsStage subject description env
  | .ok _ => embeddingRowsStage subject description env

/-- Lines 293-304 of part_003: check the vector extension, self-heal once;
only a thrown create_vector_extension call degrades. -/
def vectorExtensionStage (subject description : String) (env : SimilarityEnv) :
    Except String SimilarityOutcome :=
  match env.checkVectorExtension with
  | .throws m => .error m
  | .errs _ =>
    match env.createVectorExtension with
    | .throws _ => .ok (.degraded "Vector extension not available")
    | _ => embeddingColumnStage subject description env
  | .ok _ => embeddingColumnStage subject description env

/-- Lines 268-291 of part_003, the body of findSimilarTickets under the
outer try: table reachability and non-emptiness, then the later stages.
An Except.error value is a JavaScript exception escaping to the outer
catch. -/
def findSimilarTicketsBody (subject description : String) (env : SimilarityEnv) :
    Except String SimilarityOutcome :=
  match env.tableCheck with
  | .throws m => .error m
  | .errs _ => .ok (.degraded "Ticket history table not accessible")
  | .ok count =>
    if count = 0 then .ok (.degraded "No historical tickets available")
    else vectorExtensionStage subject description env

/-- Translation of findSimilarTickets (part_003 lines 266-392): the outer
catch turns any escaped exception into the generic degraded outcome, so the
function always returns a value to its caller. -/
def findSimilarTickets (subject description : String) (env : SimilarityEnv) :
    SimilarityOutcome :=
  match findSimilarTicketsBody subject description env with
  | .ok o => o
  | .error _ => .degraded "General error in vector similarity search"

/-- Degradation shape of the search stage: any failure outcome it produces
has no results and carries a reason, and the reason can only be empty when
the match_tickets RPC reported an error object whose message is empty. -/
theorem similaritySearchStage_degrades (subject description : String)
    (env : SimilarityEnv) (o : SimilarityOutcome)
    (hok : similaritySearchStage subject description env = .ok o)
    (hfail : o.success = false) :
    o.results = [] ∧ ∃ e, o.error = some e ∧ (e = "" → env.matchTickets = .errs "") := by
  unfold similaritySearchStage at hok
  rcases henv : env.embed ((subject ++ " " ++ description).trim) with m | v <;>
    rw [henv] at hok
  · exact absurd hok (by simp)
  · rcases hmt : env.matchTickets with m | m | tickets <;> rw [hmt] at hok <;>
      injection hok with hok <;> subst hok
    · exact ⟨rfl, "Vector similarity search failed", rfl, fun h => absurd h (by decide)⟩
    · exact ⟨rfl, m, rfl, by intro h; subst h; rfl⟩
    · cases hfail

/-- Degradation shape of the embedding-rows stage. -/
theorem embeddingRowsStage_degrades (subject description : String)
    (env : SimilarityEnv) (o : SimilarityOutcome)
    (hok : embeddingRowsStage subject description env = .ok o)
    (hfail : o.success = false) :
    o.results = [] ∧ ∃ e, o.error = some e ∧ (e = "" → env.matchTickets = .errs "") := by
  unfold embeddingRowsStage at hok
  rcases hec : env.embeddingCheck with m | m | rows <;> rw [hec] at hok
  · exact absurd hok (by simp)
  · injection hok with hok; subst hok
    exact ⟨rfl, "Could not check for embeddings", rfl, fun h => absurd h (by decide)⟩
  · by_cases hrows : rows.isEmpty <;> simp only [hrows, if_pos, if_neg, if_true, if_false] at hok
    · injection hok with hok; subst hok
      exact ⟨rfl, "No tickets with embeddings", rfl, fun h => absurd h (by decide)⟩
    · exact similaritySearchStage_degrades subject description env o hok hfail

/-- Degradation shape of the embedding-column stage. -/
theorem embeddingColumnStage_degrades (subject description : String)
    (env : SimilarityEnv) (o : SimilarityOutcome)
    (hok : embeddingColumnStage subject description env = .ok o)
    (hfail : o.success = false) :
    o.results = [] ∧ ∃ e, o.error = some e ∧ (e = "" → env.matchTickets = .errs "") := by
  unfold embeddingColumnStage at hok
  rcases hc : env.checkEmbeddingColumn with m | m | u <;> rw [hc] at hok
  · exact absurd hok (by simp)
  · rcases ha : env.addEmbeddingColumn with m2 | m2 | u2 <;> rw [ha] at hok
    · injection hok with hok; subst hok
      exact ⟨rfl, "Embedding column could not be created", rfl, fun h => absurd h (by decide)⟩
    · exact embeddingRowsStage_degrades subject description env o hok hfail
    · exact embeddingRowsStage_degrades subject description env o hok hfail
  · exact embeddingRowsStage_degrades subject description env o hok hfail

/-- Degradation shape of the vector-extension stage. -/
theorem vectorExtensionStage_degrades (subject description : String)
    (env : SimilarityEnv) (o : SimilarityOutcome)
    (hok : vectorExtensionStage subject description env = .ok o)
    (hfail : o.success = false) :
    o.results = [] ∧ ∃ e, o.error = some e ∧ (e = "" → env.matchTickets = .errs "") := by
  unfold vectorExtensionStage at hok
  rcases hc : env.checkVectorExtension with m | m | u <;> rw [hc] at hok
  · exact absurd hok (by simp)
  · rcases ha : env.createVectorExtension with m2 | m2 | u2 <;> rw [ha] at hok
    · injection hok with hok; subst hok
      exact ⟨rfl, "Vector extension not available", rfl, fun h => absurd h (by decide)⟩
    · exact embeddingColumnStage_degrades subject description env o hok hfail
    · exact embeddingColumnStage_degrades subject description env o hok hfail
  · exact embeddingColumnStage_degrades subject description env o hok hfail

/-- C5 (amended): findSimilarTickets is a total function of its inputs and
the collaborators' behavior (every JavaScript throw is absorbed by the
outer catch), and whenever the outcome it returns has success false, its
results list is empty and it carries an error reason; that reason is a
non-empty string except in one case the claim overlooks: when the
match_tickets RPC resolves with an error object whose message is the empty
string, the source (line 350) passes that empty message through verbatim. -/
theorem findSimilarTickets_degrades (subject description : String)
    (env : SimilarityEnv)
    (hfail : (findSimilarTickets subject description env).success = false) :
    (findSimilarTickets subject description env).results = [] ∧
      ∃ e, (findSimilarTickets subject description env).error = some e ∧
        (e = "" → env.matchTickets = .errs "") := by
  rcases hbody : findSimilarTicketsBody subject description env with m | o
  · have hcalc : findSimilarTickets subject description env =
        .degraded "General error in vector similarity search" := by
      unfold findSimilarTickets; rw [hbody]
    rw [hcalc]
    exact ⟨rfl, "General error in vector similarity search", rfl, fun h => absurd h (by decide)⟩
  · have hcalc : findSimilarTickets subject description env = o := by
      unfold findSimilarTickets; rw [hbody]
    rw [hcalc] at hfail ⊢
    unfold findSimilarTicketsBody at hbody
    rcases ht : env.tableCheck with m | m | count <;> rw [ht] at hbody
    · exact absurd hbody (by simp)
    · injection hbody with hbody; subst hbody
      exact ⟨rfl, "Ticket history table not accessible", rfl, fun h => absurd h (by decide)⟩
    · by_cases hcount : count = 0 <;>
        simp only [hcount, if_pos, if_neg, if_true, if_false] at hbody
      · injection hbody with hbody; subst hbody
        exact ⟨rfl, "No historical tickets available", rfl, fun h => absurd h (by decide)⟩
      · exact vectorExtensionStage_degrades subject description env o hbody hfail

/-- A collaborator behavior where every setup step succeeds and the
match_tickets RPC resolves with an error object whose message is empty. -/
def emptySearchErrorEnv : SimilarityEnv :=
  { tableCheck := .ok 3
    checkVectorExtension := .ok ()
    createVectorExtension := .ok ()
    checkEmbeddingColumn := .ok ()
    addEmbeddingColumn := .ok ()
    embeddingCheck := .ok [1]
    embed := fun _ => .ok [1, 0]
    matchTickets := .errs "" }

/-- Counterexample to C5 as stated: with an empty error message from the
similarity-search RPC, findSimilarTickets returns a failure outcome whose
error reason string is empty, so the reason is not always non-empty. -/
theorem findSimilarTickets_empty_reason_counterexample :
    (findSimilarTickets "vpn" "cannot connect" emptySearchErrorEnv).success = false ∧
      (findSimilarTickets "vpn" "cannot connect" emptySearchErrorEnv).error = some "" := by
  constructor <;> rfl

/-- Witness for C5 (amended): a concrete unreachable-store behavior
degrades to success false, empty results, and a non-empty reason. -/
theorem findSimilarTickets_degrades_witness :
    (findSimilarTickets "a" "b"
        { tableCheck := .errs "down"
          checkVectorExtension := .ok ()
          createVectorExtension := .ok ()
          checkEmbeddingColumn := .ok ()
          addEmbeddingColumn := .ok ()
          embeddingCheck := .ok [1]
          embed := fun _ => .ok []
          matchTickets := .ok [] }).results = [] ∧
      ∃ e, (findSimilarTickets "a" "b"
        { tableCheck := .errs "down"
          checkVectorExtension := .ok ()
          createVectorExtension := .ok ()
          checkEmbeddingColumn := .ok ()
          addEmbeddingColumn := .ok ()
          embeddingCheck := .ok [1]
          embed := fun _ => .ok []
          matchTickets := .ok [] }).error = some e ∧
        (e = "" →
          SimilarityEnv.matchTickets
            { tableCheck := .errs "down"
              checkVectorExtension := .ok ()
              createVectorExtension := .ok ()
              checkEmbeddingColumn := .ok ()
              addEmbeddingColumn := .ok ()
              embeddingCheck := .ok [1]
              embed := fun _ => .ok []
              matchTickets := .ok [] } = .errs "") :=
  findSimilarTickets_degrades "a" "b" _ rfl

/-- The sequence of truthy group labels of a neighbor list, in order:
exactly the labels the forEach loop of part_003 lines 357-362 tallies. -/
def labelsOf (tickets : List HistoryTicket) : List String :=
  tickets.filterMap HistoryTicket.truthyGroup

/-- First occurrences of a list's elements, kept in first-encountered
order: the key order of a JavaScript object built by insertion. -/
def firstDedup : List String → List String
  | [] => []
  | g :: gs => g :: firstDedup (gs.filter (fun x => x ≠ g))
termination_by l => l.length
decreasing_by
  simp only [List.length_cons]
  exact Nat.lt_succ_of_le (List.length_filter_le _ _)

theorem firstDedup_nil : firstDedup [] = [] := by rw [firstDedup]

theorem firstDedup_cons (g : String) (gs : List String) :
    firstDedup (g :: gs) = g :: firstDedup (gs.filter (fun x => x ≠ g)) := by rw [firstDedup]

theorem mem_firstDedup {x : String} {l : List String} : x ∈ firstDedup l ↔ x ∈ l := by
  induction l using firstDedup.induct with
  | case1 => rw [firstDedup_nil]
  | case2 g gs ih =>
    rw [firstDedup_cons]
    by_cases hx : x = g
    · subst hx; simp
    · simp only [List.mem_cons, hx, false_or]
      rw [ih]
      simp [List.mem_filter, hx]

theorem nodup_firstDedup (l : List String) : (firstDedup l).Nodup := by
  induction l using firstDedup.induct with
  | case1 => rw [firstDedup_nil]; exact List.nodup_nil
  | case2 g gs ih =>
    rw [firstDedup_cons]
    refine List.nodup_cons.mpr ⟨fun hmem => ?_, ih⟩
    have := (List.mem_filter.mp (mem_firstDedup.mp hmem)).2
    simp at this

theorem bumpCount_of_not_mem {g : String} :
    ∀ {acc : List (String × ℕ)}, g ∉ acc.map Prod.fst → bumpCount acc g = acc ++ [(g, 1)]
  | [], _ => rfl
  | (g0, c) :: rest, h => by
    have hne : g0 ≠ g := by
      intro he; exact h (by simp [he])
    have hrest : g ∉ rest.map Prod.fst := fun hm => h (by simp [hm])
    simp only [bumpCount, if_neg hne, List.cons_append]
    rw [bumpCount_of_not_mem hrest]

theorem bumpCount_keys_of_mem {g : String} :
    ∀ {acc : List (String × ℕ)}, g ∈ acc.map Prod.fst →
      (bumpCount acc g).map Prod.fst = acc.map Prod.fst
  | (g0, c) :: rest, h => by
    by_cases he : g0 = g
    · simp [bumpCount, he]
    · have hrest : g ∈ rest.map Prod.fst := by
        rcases List.mem_map.mp h with ⟨pr, hpr, hfst⟩
        rcases List.mem_cons.mp hpr with h0 | h1
        · exact absurd (by rw [h0] at hfst; exact hfst) he
        · exact List.mem_map.mpr ⟨pr, h1, hfst⟩
      simp only [bumpCount, if_neg he, List.map_cons]
      rw [bumpCount_keys_of_mem hrest]

theorem bumpCount_map_add (f : String → ℕ) {g : String} :
    ∀ {acc : List (String × ℕ)}, (acc.map Prod.fst).Nodup → g ∈ acc.map Prod.fst →
      (bumpCount acc g).map (fun pr => (pr.1, pr.2 + f pr.1)) =
        acc.map (fun pr => (pr.1, pr.2 + if pr.1 = g then f pr.1 + 1 else f pr.1))
  | (g0, c) :: rest, hnd, hmem => by
    have hnd0 : g0 ∉ rest.map Prod.fst := (List.nodup_cons.mp (by simpa using hnd)).1
    have hndr : (rest.map Prod.fst).Nodup := (List.nodup_cons.mp (by simpa using hnd)).2
    by_cases he : g0 = g
    · subst he
      simp only [bumpCount, eq_self_iff_true, if_true, List.map_cons]
      congr 1
      · simp only [Prod.mk.injEq, true_and]
        omega
      · refine (List.map_congr_left fun pr hpr => ?_).symm
        have hne : pr.1 ≠ g0 := fun hh =>
          hnd0 (List.mem_map.mpr ⟨pr, hpr, hh⟩)
        simp [hne]
    · have hg : g ∈ rest.map Prod.fst := by
        rcases List.mem_map.mp hmem with ⟨pr, hpr, hfst⟩
        rcases List.mem_cons.mp hpr with h0 | h1
        · exact absurd (by rw [h0] at hfst; exact hfst) he
        · exact List.mem_map.mpr ⟨pr, h1, hfst⟩
      simp only [bumpCount, if_neg he, List.map_cons]
      rw [bumpCount_map_add f hndr hg]

theorem foldl_bumpCount_closed :
    ∀ (gs : List String) (acc : List (String × ℕ)), (acc.map Prod.fst).Nodup →
      gs.foldl bumpCount acc =
        acc.map (fun pr => (pr.1, pr.2 + gs.count pr.1)) ++
          (firstDedup (gs.filter (fun x => x ∉ acc.map Prod.fst))).map
            (fun x => (x, gs.count x))
  | [], acc, hnd => by
    simp [firstDedup_nil]
  | g :: gs, acc, hnd => by
    rw [List.foldl_cons]
    by_cases hg : g ∈ acc.map Prod.fst
    · have hkeys := bumpCount_keys_of_mem hg
      rw [foldl_bumpCount_closed gs (bumpCount acc g) (by rw [hkeys]; exact hnd)]
      rw [hkeys]
      have hleft : (bumpCount acc g).map (fun pr => (pr.1, pr.2 + gs.count pr.1)) =
          acc.map (fun pr => (pr.1, pr.2 + (g :: gs).count pr.1)) := by
        rw [bumpCount_map_add (fun x => gs.count x) hnd hg]
        refine List.map_congr_left fun pr hpr => ?_
        by_cases hpg : pr.1 = g
        · simp [hpg, List.count_cons_self]
        · simp [hpg, List.count_cons_of_ne hpg]
      have hfilter : (g :: gs).filter (fun x => x ∉ acc.map Prod.fst) =
          gs.filter (fun x => x ∉ acc.map Prod.fst) := by
        rw [List.filter_cons]
        simp [hg]
      have hright : (firstDedup (gs.filter (fun x => x ∉ acc.map Prod.fst))).map
            (fun x => (x, gs.count x)) =
          (firstDedup ((g :: gs).filter (fun x => x ∉ acc.map Prod.fst))).map
            (fun x => (x, (g :: gs).count x)) := by
        rw [hfilter]
        refine List.map_congr_left fun x hx => ?_
        have hxk : x ∉ acc.map Prod.fst := by
          have := (List.mem_filter.mp (mem_firstDedup.mp hx)).2
          simpa using this
        have hxg : x ≠ g := fun hh => hxk (hh ▸ hg)
        rw [List.count_cons_of_ne hxg]
      rw [hleft, hright]
    · rw [bumpCount_of_not_mem hg]
      have hkeys : ((acc ++ [(g, 1)]).map Prod.fst) = acc.map Prod.fst ++ [g] := by simp
      have hnd2 : ((acc ++ [(g, 1)]).map Prod.fst).Nodup := by
        rw [hkeys]
        simp [List.nodup_append, hnd, hg]
      rw [foldl_bumpCount_closed gs (acc ++ [(g, 1)]) hnd2]
      rw [hkeys]
      have hmapA : acc.map (fun pr => (pr.1, pr.2 + gs.count pr.1)) =
          acc.map (fun pr => (pr.1, pr.2 + (g :: gs).count pr.1)) := by
        refine List.map_congr_left fun pr hpr => ?_
        have hne : pr.1 ≠ g := fun hh => hg (hh ▸ List.mem_map.mpr ⟨pr, hpr, rfl⟩)
        rw [List.count_cons_of_ne hne]
      have hfg : (g :: gs).filter (fun x => x ∉ acc.map Prod.fst) =
          g :: gs.filter (fun x => x ∉ acc.map Prod.fst) := by
        rw [List.filter_cons]
        simp [hg]
      have hff : gs.filter (fun x => x ∉ acc.map Prod.fst ++ [g]) =
          (gs.filter (fun x => x ∉ acc.map Prod.fst)).filter (fun x => x ≠ g) := by
        rw [List.filter_filter]
        refine List.filter_congr fun x hx => ?_
        by_cases h1 : x = g <;> by_cases h2 : x ∈ acc.map Prod.fst <;>
          simp [h1, h2]
      have htail : (firstDedup ((gs.filter (fun x => x ∉ acc.map Prod.fst)).filter
              (fun x => x ≠ g))).map (fun x => (x, (g :: gs).count x)) =
          (firstDedup ((gs.filter (fun x => x ∉ acc.map Prod.fst)).filter
              (fun x => x ≠ g))).map (fun x => (x, gs.count x)) := by
        refine List.map_congr_left fun x hx => ?_
        have hxg : x ≠ g := by
          have := (List.mem_filter.mp (mem_firstDedup.mp hx)).2
          simpa using this
        rw [List.count_cons_of_ne hxg]
      rw [List.map_append, hmapA, hff, hfg, firstDedup_cons]
      simp only [List.map_cons, List.map_nil, List.count_cons_self, htail,
        List.append_assoc, List.singleton_append, List.nil_append, List.cons_append]
      simp [Nat.add_comm]

theorem foldl_bumpCount_nil_closed (gs : List String) :
    gs.foldl bumpCount [] = (firstDedup gs).map (fun x => (x, gs.count x)) := by
  have h := foldl_bumpCount_closed gs [] (by simp)
  simpa using h

theorem tallyTickets_eq (tickets : List HistoryTicket) :
    tallyTickets tickets =
      ((labelsOf tickets).foldl bumpCount [], (labelsOf tickets).length) := by
  suffices h : ∀ (ts : List HistoryTicket) (acc : List (String × ℕ)) (n : ℕ),
      (ts.foldl
        (fun st t =>
          match t.truthyGroup with
          | some g => (bumpCount st.1 g, st.2 + 1)
          | none => st) (acc, n)) =
      ((labelsOf ts).foldl bumpCount acc, n + (labelsOf ts).length) by
    simpa using h tickets [] 0
  intro ts
  induction ts with
  | nil => intro acc n; simp [labelsOf]
  | cons t ts ih =>
    intro acc n
    rcases ht : t.truthyGroup with _ | g
    · simp only [List.foldl_cons, ht, labelsOf, List.filterMap_cons]
      exact ih acc n
    · simp only [List.foldl_cons, ht, labelsOf, List.filterMap_cons]
      rw [ih (bumpCount acc g) (n + 1)]
      simp only [List.foldl_cons, List.length_cons, labelsOf, Prod.mk.injEq]
      exact ⟨trivial, by omega⟩

/-- The tally association list in its closed form: the first-encountered
group labels paired with their occurrence counts. -/
def tallyPairs (tickets : List HistoryTicket) : List (String × ℕ) :=
  (firstDedup (labelsOf tickets)).map (fun g => (g, (labelsOf tickets).count g))

/-- The unsorted scored-group list in Object.entries enumeration order,
exactly as the loop of part_003 lines 364-373 produces it. -/
def scoredGroups (tickets : List HistoryTicket) : List SimilarityMatch :=
  (jsEntries (tallyPairs tickets)).map (fun pr =>
    { name := pr.1
      confidence := ((mathRound ((pr.2 : ℚ) /
          ((labelsOf tickets).length : ℚ) * 100) : ℤ) : ℚ)
      count := pr.2 })

theorem rankGroups_eq (tickets : List HistoryTicket) :
    rankGroups tickets = (scoredGroups tickets).mergeSort confDesc := by
  unfold rankGroups scoredGroups tallyPairs
  rw [tallyTickets_eq, foldl_bumpCount_nil_closed]

theorem confDesc_trans (a b c : SimilarityMatch) (h1 : confDesc a b) (h2 : confDesc b c) :
    confDesc a c := by
  simp only [confDesc, decide_eq_true_eq] at *
  exact le_trans h2 h1

theorem confDesc_total (a b : SimilarityMatch) : confDesc a b || confDesc b a := by
  simp only [confDesc]
  rcases le_total a.confidence b.confidence with h | h <;> simp [h]

theorem indexOf_filter_lt (p : String → Bool) :
    ∀ (l : List String) (x y : String), x ∈ l.filter p → y ∈ l.filter p →
      (l.filter p).indexOf x < (l.filter p).indexOf y → l.indexOf x < l.indexOf y
  | [], x, y, hx, hy, h => by simp at hx
  | c :: t, x, y, hx, hy, h => by
    by_cases hc : p c
    · rw [List.filter_cons_of_pos hc] at hx hy h
      by_cases hxc : x = c
      · subst hxc
        have hyx : y ≠ x := fun he => by subst he; exact lt_irrefl _ h
        rw [List.indexOf_cons_self, List.indexOf_cons_ne t (fun he => hyx he.symm)]
        exact Nat.succ_pos _
      · by_cases hyc : y = c
        · subst hyc
          rw [List.indexOf_cons_self,
            List.indexOf_cons_ne (t.filter p) (fun he => hxc he.symm)] at h
          exact absurd h (Nat.not_lt_zero _)
        · rw [List.indexOf_cons_ne (t.filter p) (fun he => hxc he.symm),
            List.indexOf_cons_ne (t.filter p) (fun he => hyc he.symm)] at h
          rw [List.indexOf_cons_ne t (fun he => hxc he.symm),
            List.indexOf_cons_ne t (fun he => hyc he.symm)]
          have hx2 : x ∈ t.filter p := by
            rcases List.mem_cons.mp hx with h0 | h0
            · exact absurd h0 hxc
            · exact h0
          have hy2 : y ∈ t.filter p := by
            rcases List.mem_cons.mp hy with h0 | h0
            · exact absurd h0 hyc
            · exact h0
          exact Nat.succ_lt_succ
            (indexOf_filter_lt p t x y hx2 hy2 (Nat.lt_of_succ_lt_succ h))
    · rw [List.filter_cons_of_neg hc] at hx hy h
      have hxc : x ≠ c := fun he => hc (he ▸ (List.mem_filter.mp hx).2)
      have hyc : y ≠ c := fun he => hc (he ▸ (List.mem_filter.mp hy).2)
      rw [List.indexOf_cons_ne t (fun he => hxc he.symm),
        List.indexOf_cons_ne t (fun he => hyc he.symm)]
      exact Nat.succ_lt_succ (indexOf_filter_lt p t x y hx hy h)

theorem pairwise_indexOf_firstDedup (l : List String) :
    (firstDedup l).Pairwise (fun x y => l.indexOf x < l.indexOf y) := by
  induction l using firstDedup.induct with
  | case1 => rw [firstDedup_nil]; exact List.Pairwise.nil
  | case2 g gs ih =>
    rw [firstDedup_cons]
    refine List.pairwise_cons.mpr ⟨fun y hy => ?_, ?_⟩
    · have hyne : y ≠ g := by
        have := (List.mem_filter.mp (mem_firstDedup.mp hy)).2
        simpa using this
      rw [List.indexOf_cons_self, List.indexOf_cons_ne gs (fun he => hyne he.symm)]
      exact Nat.succ_pos _
    · refine ih.imp_of_mem ?_
      intro a b ha hb hab
      have haf := mem_firstDedup.mp ha
      have hbf := mem_firstDedup.mp hb
      have hane : a ≠ g := by
        have := (List.mem_filter.mp haf).2; simpa using this
      have hbne : b ≠ g := by
        have := (List.mem_filter.mp hbf).2; simpa using this
      rw [List.indexOf_cons_ne gs (fun he => hane he.symm),
        List.indexOf_cons_ne gs (fun he => hbne he.symm)]
      exact Nat.succ_lt_succ (indexOf_filter_lt _ gs a b haf hbf hab)

theorem pair_sublist_of_mem_nodup :
    ∀ {l : List SimilarityMatch} {a b : SimilarityMatch}, l.Nodup →
      a ∈ l → b ∈ l → a ≠ b → [a, b].Sublist l ∨ [b, a].Sublist l
  | [], a, b, _, ha, _, _ => absurd ha (List.not_mem_nil a)
  | c :: t, a, b, hnd, ha, hb, hab => by
    rcases List.nodup_cons.mp hnd with ⟨hct, hndt⟩
    by_cases hac : a = c
    · subst hac
      have hbt : b ∈ t := by
        rcases List.mem_cons.mp hb with h0 | h0
        · exact absurd h0.symm hab
        · exact h0
      exact Or.inl ((List.singleton_sublist.mpr hbt).cons₂ a)
    · by_cases hbc : b = c
      · subst hbc
        have hat : a ∈ t := by
          rcases List.mem_cons.mp ha with h0 | h0
          · exact absurd h0 hac
          · exact h0
        exact Or.inr ((List.singleton_sublist.mpr hat).cons₂ b)
      · have hat : a ∈ t := by
          rcases List.mem_cons.mp ha with h0 | h0
          · exact absurd h0 hac
          · exact h0
        have hbt : b ∈ t := by
          rcases List.mem_cons.mp hb with h0 | h0
          · exact absurd h0 hbc
          · exact h0
        rcases pair_sublist_of_mem_nodup hndt hat hbt hab with h | h
        · exact Or.inl (h.cons c)
        · exact Or.inr (h.cons c)

theorem sublist_pair_antisymm :
    ∀ {l : List SimilarityMatch} {a b : SimilarityMatch}, l.Nodup →
      [a, b].Sublist l → [b, a].Sublist l → a = b
  | [], a, b, _, h1, _ => by cases h1
  | c :: t, a, b, hnd, h1, h2 => by
    rcases List.nodup_cons.mp hnd with ⟨hct, hndt⟩
    cases h1 with
    | cons _ h1a =>
      cases h2 with
      | cons _ h2a => exact sublist_pair_antisymm hndt h1a h2a
      | cons₂ h2a =>
        exact absurd (h1a.subset (by simp)) hct
    | cons₂ h1a =>
      cases h2 with
      | cons _ h2a =>
        exact absurd (h2a.subset (by simp)) hct
      | cons₂ h2a => rfl

theorem truthyGroup_eq_some {t : HistoryTicket} {g : String}
    (h : t.truthyGroup = some g) : t.assigned_group = some g ∧ g ≠ "" := by
  unfold HistoryTicket.truthyGroup at h
  rcases ha : t.assigned_group with _ | g0 <;> rw [ha] at h <;> dsimp only at h
  · cases h
  · by_cases h0 : g0 = ""
    · rw [if_pos h0] at h; cases h
    · rw [if_neg h0] at h
      injection h with h
      subst h
      exact ⟨rfl, h0⟩

theorem truthyGroup_beq_false {t : HistoryTicket} {g : String}
    (ht : t.truthyGroup = none) (hg : g ≠ "") :
    (t.assigned_group == some g) = false := by
  unfold HistoryTicket.truthyGroup at ht
  rcases ha : t.assigned_group with _ | g1 <;> rw [ha] at ht <;> dsimp only at ht
  · rfl
  · by_cases h1 : g1 = ""
    · subst h1
      simp [Ne.symm hg]
    · rw [if_neg h1] at ht; cases ht

theorem labels_count_eq_countP (tickets : List HistoryTicket) {g : String} (hg : g ≠ "") :
    (labelsOf tickets).count g =
      tickets.countP (fun t => t.assigned_group == some g) := by
  induction tickets with
  | nil => rfl
  | cons t ts ih =>
    rw [List.countP_cons]
    unfold labelsOf
    rw [List.filterMap_cons]
    rcases ht : t.truthyGroup with _ | g0
    · rw [truthyGroup_beq_false ht hg]
      simpa [labelsOf] using ih
    · rw [(truthyGroup_eq_some ht).1]
      by_cases hgg : g0 = g
      · subst hgg
        rw [List.count_cons_self]
        simp only [labelsOf] at ih
        simp [ih]
      · rw [List.count_cons_of_ne (fun he => hgg he.symm)]
        have : ((some g0 : Option String) == some g) = false := by
          simp [hgg]
        rw [this]
        simpa [labelsOf] using ih

theorem jsEntries_perm (l : List (String × ℕ)) : List.Perm (jsEntries l) l := by
  unfold jsEntries
  refine List.Perm.trans (List.Perm.append_right _ (List.mergeSort_perm _ _)) ?_
  exact List.filter_append_perm _ l

theorem tallyPairs_fst (tickets : List HistoryTicket) :
    (tallyPairs tickets).map Prod.fst = firstDedup (labelsOf tickets) := by
  unfold tallyPairs
  rw [List.map_map]
  exact List.map_id' _

theorem scoredGroups_names_eq (tickets : List HistoryTicket) :
    (scoredGroups tickets).map SimilarityMatch.name =
      (jsEntries (tallyPairs tickets)).map Prod.fst := by
  unfold scoredGroups
  rw [List.map_map]
  rfl

theorem scoredGroups_names_nodup (tickets : List HistoryTicket) :
    ((scoredGroups tickets).map SimilarityMatch.name).Nodup := by
  rw [scoredGroups_names_eq]
  have hp : List.Perm ((jsEntries (tallyPairs tickets)).map Prod.fst)
      ((tallyPairs tickets).map Prod.fst) :=
    (jsEntries_perm _).map _
  refine hp.nodup_iff.mpr ?_
  rw [tallyPairs_fst]
  exact nodup_firstDedup (labelsOf tickets)

theorem rankGroups_entries (tickets : List HistoryTicket) :
    ∀ e ∈ rankGroups tickets,
      (∃ t ∈ tickets, t.assigned_group = some e.name) ∧
      1 ≤ e.count ∧
      e.count = (labelsOf tickets).count e.name ∧
      e.count = tickets.countP (fun t => t.assigned_group == some e.name) ∧
      e.confidence =
        ((mathRound ((e.count : ℚ) / ((labelsOf tickets).length : ℚ) * 100) : ℤ) : ℚ) ∧
      0 ≤ e.confidence ∧ e.confidence ≤ 100 := by
  intro e he
  rw [rankGroups_eq] at he
  have heS : e ∈ scoredGroups tickets := List.mem_mergeSort.mp he
  unfold scoredGroups at heS
  rcases List.mem_map.mp heS with ⟨pr, hpje, hpe⟩
  have hpt : pr ∈ tallyPairs tickets := ((jsEntries_perm _).mem_iff).mp hpje
  unfold tallyPairs at hpt
  rcases List.mem_map.mp hpt with ⟨g, hgfd, hgpr⟩
  have hgl : g ∈ labelsOf tickets := mem_firstDedup.mp hgfd
  rcases List.mem_filterMap.mp hgl with ⟨t, htm, htg⟩
  have htga := truthyGroup_eq_some htg
  subst hgpr
  subst hpe
  dsimp only
  have hcount1 : 1 ≤ (labelsOf tickets).count g := List.count_pos_iff.mpr hgl
  have hclen : (labelsOf tickets).count g ≤ (labelsOf tickets).length :=
    List.count_le_length g (labelsOf tickets)
  have hlenpos : 0 < ((labelsOf tickets).length : ℚ) := by
    have : 0 < (labelsOf tickets).length := List.length_pos.mpr (List.ne_nil_of_mem hgl)
    exact_mod_cast this
  have hx0 : (0 : ℚ) ≤ ((labelsOf tickets).count g : ℚ) /
      ((labelsOf tickets).length : ℚ) * 100 := by positivity
  have hx100 : ((labelsOf tickets).count g : ℚ) /
      ((labelsOf tickets).length : ℚ) * 100 ≤ 100 := by
    have hdiv : ((labelsOf tickets).count g : ℚ) / ((labelsOf tickets).length : ℚ) ≤ 1 := by
      rw [div_le_one hlenpos]
      exact_mod_cast hclen
    nlinarith
  refine ⟨⟨t, htm, htga.1⟩, hcount1, rfl, ?_, rfl, ?_, ?_⟩
  · exact labels_count_eq_countP tickets htga.2
  · have : (0 : ℤ) ≤ mathRound (((labelsOf tickets).count g : ℚ) /
        ((labelsOf tickets).length : ℚ) * 100) := by
      rw [mathRound, Int.le_floor]
      push_cast
      linarith
    exact_mod_cast this
  · have : mathRound (((labelsOf tickets).count g : ℚ) /
        ((labelsOf tickets).length : ℚ) * 100) ≤ (100 : ℤ) := by
      have h101 : mathRound (((labelsOf tickets).count g : ℚ) /
          ((labelsOf tickets).length : ℚ) * 100) < (101 : ℤ) := by
        rw [mathRound, Int.floor_lt]
        push_cast
        linarith
      omega
    exact_mod_cast this

theorem rankGroups_sorted (tickets : List HistoryTicket) :
    (rankGroups tickets).Pairwise (fun a b => b.confidence ≤ a.confidence) := by
  rw [rankGroups_eq]
  have h := @List.sorted_mergeSort _ confDesc confDesc_trans confDesc_total
    (scoredGroups tickets)
  exact h.imp fun hab => by simpa [confDesc] using hab

/-- Precedence of two object keys under the ECMAScript enumeration order,
relative to a first-encounter list: an array-index key precedes every
non-index key; two array-index keys are ordered by numeric value; two
non-index keys are ordered by first occurrence in the list. -/
def jsKeyPrec (labels : List String) (x y : String) : Prop :=
  match arrayIndexOf? x, arrayIndexOf? y with
  | some i, some j => i < j
  | some _, none => True
  | none, some _ => False
  | none, none => labels.indexOf x < labels.indexOf y

theorem arrayIndexOf?_eq_some {s : String} {n : ℕ} (h : arrayIndexOf? s = some n) :
    toString n = s := by
  unfold arrayIndexOf? at h
  rcases ht : digitsVal s.data 0 with _ | m <;> rw [ht] at h <;> dsimp only at h
  · cases h
  · by_cases hc : toString m = s ∧ m < 4294967295
    · rw [if_pos hc] at h
      injection h with h
      subst h
      exact hc.1
    · rw [if_neg hc] at h
      cases h

theorem arrayIndexOf?_eq_none_of_not_key {s : String} (h : isArrayIndexKey s = false) :
    arrayIndexOf? s = none := by
  unfold isArrayIndexKey at h
  rcases hs : arrayIndexOf? s with _ | n
  · rfl
  · rw [hs] at h
    cases h

theorem idxKeyLe_trans (a b c : String × ℕ) (h1 : idxKeyLe a b) (h2 : idxKeyLe b c) :
    idxKeyLe a c := by
  simp only [idxKeyLe, decide_eq_true_eq] at *
  omega

theorem idxKeyLe_total (a b : String × ℕ) : idxKeyLe a b || idxKeyLe b a := by
  simp only [idxKeyLe]
  rcases Nat.le_total ((arrayIndexOf? a.1).getD 0) ((arrayIndexOf? b.1).getD 0) with h | h <;>
    simp [h]

theorem jsEntries_pairwise (labels : List String) (ps : List (String × ℕ))
    (hnd : (ps.map Prod.fst).Nodup)
    (hpw : ps.Pairwise (fun pr qr => labels.indexOf pr.1 < labels.indexOf qr.1)) :
    (jsEntries ps).Pairwise (fun pr qr => jsKeyPrec labels pr.1 qr.1) := by
  unfold jsEntries
  rw [List.pairwise_append]
  have hsub1 : (ps.filter (fun pr => isArrayIndexKey pr.1)).Sublist ps :=
    List.filter_sublist _
  have hsub2 : (ps.filter (fun pr => !isArrayIndexKey pr.1)).Sublist ps :=
    List.filter_sublist _
  refine ⟨?_, ?_, ?_⟩
  · have hsorted := @List.sorted_mergeSort _ idxKeyLe idxKeyLe_trans idxKeyLe_total
      (ps.filter (fun pr => isArrayIndexKey pr.1))
    have hndf : ((ps.filter (fun pr => isArrayIndexKey pr.1)).map Prod.fst).Nodup :=
      (hsub1.map Prod.fst).nodup hnd
    have hndm : (((ps.filter (fun pr => isArrayIndexKey pr.1)).mergeSort idxKeyLe).map
        Prod.fst).Nodup :=
      (((List.mergeSort_perm _ _).map Prod.fst).nodup_iff).mpr hndf
    have hne : ((ps.filter (fun pr => isArrayIndexKey pr.1)).mergeSort idxKeyLe).Pairwise
        (fun pr qr => pr.1 ≠ qr.1) := List.pairwise_map.mp hndm
    refine (hsorted.and hne).imp_of_mem ?_
    intro x y hx hy hxy
    have hxk : isArrayIndexKey x.1 := (List.mem_filter.mp (List.mem_mergeSort.mp hx)).2
    have hyk : isArrayIndexKey y.1 := (List.mem_filter.mp (List.mem_mergeSort.mp hy)).2
    rcases hxi : arrayIndexOf? x.1 with _ | i
    · rw [isArrayIndexKey, hxi] at hxk
      cases hxk
    · rcases hyi : arrayIndexOf? y.1 with _ | j
      · rw [isArrayIndexKey, hyi] at hyk
        cases hyk
      · have hle : i ≤ j := by
          have h1 := hxy.1
          simp only [idxKeyLe, decide_eq_true_eq, hxi, hyi, Option.getD_some] at h1
          exact h1
        have hij : i ≠ j := by
          intro he
          subst he
          exact hxy.2 ((arrayIndexOf?_eq_some hxi).symm.trans (arrayIndexOf?_eq_some hyi))
        simp only [jsKeyPrec, hxi, hyi]
        omega
  · have hf : (ps.filter (fun pr => !isArrayIndexKey pr.1)).Pairwise
        (fun pr qr => labels.indexOf pr.1 < labels.indexOf qr.1) := hpw.sublist hsub2
    refine hf.imp_of_mem ?_
    intro x y hx hy hxy
    have hxk : arrayIndexOf? x.1 = none := by
      refine arrayIndexOf?_eq_none_of_not_key ?_
      have := (List.mem_filter.mp hx).2
      simpa using this
    have hyk : arrayIndexOf? y.1 = none := by
      refine arrayIndexOf?_eq_none_of_not_key ?_
      have := (List.mem_filter.mp hy).2
      simpa using this
    simp only [jsKeyPrec, hxk, hyk]
    exact hxy
  · intro x hx y hy
    have hxk : isArrayIndexKey x.1 := (List.mem_filter.mp (List.mem_mergeSort.mp hx)).2
    have hyk : arrayIndexOf? y.1 = none := by
      refine arrayIndexOf?_eq_none_of_not_key ?_
      have := (List.mem_filter.mp hy).2
      simpa using this
    rcases hxi : arrayIndexOf? x.1 with _ | i
    · rw [isArrayIndexKey, hxi] at hxk
      cases hxk
    · simp only [jsKeyPrec, hxi, hyk]

theorem rankGroups_stable (tickets : List HistoryTicket) :
    ∀ a b, [a, b].Sublist (rankGroups tickets) → a.confidence = b.confidence →
      jsKeyPrec (labelsOf tickets) a.name b.name := by
  intro a b hsub hconf
  have hnodupS : (scoredGroups tickets).Nodup :=
    (scoredGroups_names_nodup tickets).of_map
  have hperm := List.mergeSort_perm (scoredGroups tickets) confDesc
  have hnodupR : (rankGroups tickets).Nodup := by
    rw [rankGroups_eq]
    exact hperm.nodup_iff.mpr hnodupS
  have hab : a ≠ b := by
    intro he
    subst he
    have := hsub.nodup hnodupR
    simp at this
  have haR : a ∈ rankGroups tickets := hsub.subset (by simp)
  have hbR : b ∈ rankGroups tickets := hsub.subset (by simp)
  have haS : a ∈ scoredGroups tickets := by
    rw [rankGroups_eq] at haR
    exact List.mem_mergeSort.mp haR
  have hbS : b ∈ scoredGroups tickets := by
    rw [rankGroups_eq] at hbR
    exact List.mem_mergeSort.mp hbR
  have hpw : (scoredGroups tickets).Pairwise
      (fun x y => jsKeyPrec (labelsOf tickets) x.name y.name) := by
    unfold scoredGroups
    rw [List.pairwise_map]
    refine jsEntries_pairwise (labelsOf tickets) (tallyPairs tickets) ?_ ?_
    · rw [tallyPairs_fst]
      exact nodup_firstDedup (labelsOf tickets)
    · unfold tallyPairs
      rw [List.pairwise_map]
      exact pairwise_indexOf_firstDedup (labelsOf tickets)
  rcases pair_sublist_of_mem_nodup hnodupS haS hbS hab with hord | hord
  · have hp2 := hpw.sublist hord
    exact List.rel_of_pairwise_cons hp2 (List.mem_singleton_self _)
  · have hba : [b, a].Sublist (rankGroups tickets) := by
      rw [rankGroups_eq]
      refine List.pair_sublist_mergeSort confDesc_trans confDesc_total ?_ hord
      simp [confDesc, hconf]
    exact absurd (sublist_pair_antisymm hnodupR hsub hba) hab

theorem similaritySearchStage_success (subject description : String)
    (env : SimilarityEnv) (o : SimilarityOutcome)
    (hok : similaritySearchStage subject description env = .ok o)
    (hs : o.success = true) :
    ∃ tickets, env.matchTickets = .ok tickets ∧ o.results = rankGroups tickets := by
  unfold similaritySearchStage at hok
  rcases henv : env.embed ((subject ++ " " ++ description).trim) with m | v <;>
    rw [henv] at hok
  · exact absurd hok (by simp)
  · rcases hmt : env.matchTickets with m | m | tickets <;> rw [hmt] at hok <;>
      injection hok with hok <;> subst hok
    · cases hs
    · cases hs
    · exact ⟨tickets, rfl, rfl⟩

theorem embeddingRowsStage_success (subject description : String)
    (env : SimilarityEnv) (o : SimilarityOutcome)
    (hok : embeddingRowsStage subject description env = .ok o)
    (hs : o.success = true) :
    ∃ tickets, env.matchTickets = .ok tickets ∧ o.results = rankGroups tickets := by
  unfold embeddingRowsStage at hok
  rcases hec : env.embeddingCheck with m | m | rows <;> rw [hec] at hok
  · exact absurd hok (by simp)
  · injection hok with hok; subst hok; cases hs
  · by_cases hrows : rows.isEmpty <;>
      simp only [hrows, if_pos, if_neg, if_true, if_false] at hok
    · injection hok with hok; subst hok; cases hs
    · exact similaritySearchStage_success subject description env o hok hs

theorem embeddingColumnStage_success (subject description : String)
    (env : SimilarityEnv) (o : SimilarityOutcome)
    (hok : embeddingColumnStage subject description env = .ok o)
    (hs : o.success = true) :
    ∃ tickets, env.matchTickets = .ok tickets ∧ o.results = rankGroups tickets := by
  unfold embeddingColumnStage at hok
  rcases hc : env.checkEmbeddingColumn with m | m | u <;> rw [hc] at hok
  · exact absurd hok (by simp)
  · rcases ha : env.addEmbeddingColumn with m2 | m2 | u2 <;> rw [ha] at hok
    · injection hok with hok; subst hok; cases hs
    · exact embeddingRowsStage_success subject description env o hok hs
    · exact embeddingRowsStage_success subject description env o hok hs
  · exact embeddingRowsStage_success subject description env o hok hs

theorem vectorExtensionStage_success (subject description : String)
    (env : SimilarityEnv) (o : SimilarityOutcome)
    (hok : vectorExtensionStage subject description env = .ok o)
    (hs : o.success = true) :
    ∃ tickets, env.matchTickets = .ok tickets ∧ o.results = rankGroups tickets := by
  unfold vectorExtensionStage at hok
  rcases hc : env.checkVectorExtension with m | m | u <;> rw [hc] at hok
  · exact absurd hok (by simp)
  · rcases ha : env.createVectorExtension with m2 | m2 | u2 <;> rw [ha] at hok
    · injection hok with hok; subst hok; cases hs
    · exact embeddingColumnStage_success subject description env o hok hs
    · exact embeddingColumnStage_success subject description env o hok hs
  · exact embeddingColumnStage_success subject description env o hok hs

theorem findSimilarTickets_success (subject description : String)
    (env : SimilarityEnv)
    (hs : (findSimilarTickets subject description env).success = true) :
    ∃ tickets, env.matchTickets = .ok tickets ∧
      (findSimilarTickets subject description env).results = rankGroups tickets := by
  rcases hbody : findSimilarTicketsBody subject description env with m | o
  · have hcalc : findSimilarTickets subject description env =
        .degraded "General error in vector similarity search" := by
      unfold findSimilarTickets; rw [hbody]
    rw [hcalc] at hs
    cases hs
  · have hcalc : findSimilarTickets subject description env = o := by
      unfold findSimilarTickets; rw [hbody]
    rw [hcalc] at hs ⊢
    unfold findSimilarTicketsBody at hbody
    rcases ht : env.tableCheck with m | m | count <;> rw [ht] at hbody
    · exact absurd hbody (by simp)
    · injection hbody with hbody; subst hbody; cases hs
    · by_cases hcount : count = 0 <;>
        simp only [hcount, if_pos, if_neg, if_true, if_false] at hbody
      · injection hbody with hbody; subst hbody; cases hs
      · exact vectorExtensionStage_success subject description env o hbody hs

/-- C6 (amended): whenever the similarity classifier reports success, every
results entry names a group that occurs among the returned neighbors with a
non-null assigned group, its count is that group's raw occurrence count,
its confidence equals round(100 x count / total labeled neighbors) and lies
in [0, 100], and the results list is sorted by confidence descending with
ties kept in the Object.entries enumeration order of the tally object
(jsKeyPrec): all-digit array-index group names first in ascending numeric
order, then the remaining groups in first-encountered order.  In
particular, ties are in first-encountered order whenever no tied group name
is an all-digit string. -/
theorem findSimilarTickets_results_sound (subject description : String)
    (env : SimilarityEnv)
    (hs : (findSimilarTickets subject description env).success = true) :
    ∃ tickets, env.matchTickets = .ok tickets ∧
      ((∀ e ∈ (findSimilarTickets subject description env).results,
        (∃ t ∈ tickets, t.assigned_group = some e.name) ∧
        1 ≤ e.count ∧
        e.count = (labelsOf tickets).count e.name ∧
        e.count = tickets.countP (fun t => t.assigned_group == some e.name) ∧
        e.confidence =
          ((mathRound ((e.count : ℚ) / ((labelsOf tickets).length : ℚ) * 100) : ℤ) : ℚ) ∧
        0 ≤ e.confidence ∧ e.confidence ≤ 100) ∧
      (findSimilarTickets subject description env).results.Pairwise
        (fun a b => b.confidence ≤ a.confidence) ∧
      (∀ a b, [a, b].Sublist (findSimilarTickets subject description env).results →
        a.confidence = b.confidence →
        jsKeyPrec (labelsOf tickets) a.name b.name)) := by
  rcases findSimilarTickets_success subject description env hs with ⟨tickets, hmt, hres⟩
  refine ⟨tickets, hmt, ?_, ?_, ?_⟩
  · rw [hres]; exact rankGroups_entries tickets
  · rw [hres]; exact rankGroups_sorted tickets
  · rw [hres]; exact rankGroups_stable tickets

/-- A fully ready collaborator behavior: reachable non-empty store, vector
extension and embedding column present, embedded rows present, working
embedding provider, and two labeled neighbors from the search. -/
def readySimilarityEnv : SimilarityEnv :=
  { tableCheck := .ok 5
    checkVectorExtension := .ok ()
    createVectorExtension := .ok ()
    checkEmbeddingColumn := .ok ()
    addEmbeddingColumn := .ok ()
    embeddingCheck := .ok [1]
    embed := fun _ => .ok [1, 0]
    matchTickets := .ok [{ assigned_group := some "Security" },
      { assigned_group := some "Security" }] }

/-- Witness for C6: the ready behavior above yields a success outcome, and
the theorem's conclusion holds of it. -/
theorem findSimilarTickets_results_sound_witness :
    ∃ tickets, readySimilarityEnv.matchTickets = .ok tickets ∧
      ((∀ e ∈ (findSimilarTickets "laptop" "broken" readySimilarityEnv).results,
        (∃ t ∈ tickets, t.assigned_group = some e.name) ∧
        1 ≤ e.count ∧
        e.count = (labelsOf tickets).count e.name ∧
        e.count = tickets.countP (fun t => t.assigned_group == some e.name) ∧
        e.confidence =
          ((mathRound ((e.count : ℚ) / ((labelsOf tickets).length : ℚ) * 100) : ℤ) : ℚ) ∧
        0 ≤ e.confidence ∧ e.confidence ≤ 100) ∧
      (findSimilarTickets "laptop" "broken" readySimilarityEnv).results.Pairwise
        (fun a b => b.confidence ≤ a.confidence) ∧
      (∀ a b, [a, b].Sublist (findSimilarTickets "laptop" "broken" readySimilarityEnv).results →
        a.confidence = b.confidence →
        jsKeyPrec (labelsOf tickets) a.name b.name)) :=
  findSimilarTickets_results_sound "laptop" "broken" readySimilarityEnv rfl

/-- A JSON value as the JavaScript JSON.parse builtin produces one. -/
inductive Js where
  | null : Js
  | bool : Bool → Js
  | num : ℚ → Js
  | str : String → Js
  | arr : List Js → Js
  | obj : List (String × Js) → Js

/-- Property access on a parsed JSON object; anything else is undefined. -/
def Js.getField : Js → String → Option Js
  | .obj fields, k => (fields.find? (fun pr => pr.1 == k)).map Prod.snd
  | _, _ => none

/-- The name field of a parsed group record, when it is a string. -/
def jsName (v : Js) : Option String :=
  match v.getField "name" with
  | some (.str s) => some s
  | _ => none

/-- Shape of one group record as the spec describes it: an object with a
string name, a numeric confidence and a string reasoning. -/
def groupShape (v : Js) : Bool :=
  (match v.getField "name" with | some (.str _) => true | _ => false) &&
  (match v.getField "confidence" with | some (.num _) => true | _ => false) &&
  (match v.getField "reasoning" with | some (.str _) => true | _ => false)

/-- The expected ClassificationResult shape as the spec words it (sections
3 and 4.1): a primaryGroup group record plus an alternativeGroups list of
group records.  This definition follows the spec, for comparison with what
the source actually returns; the source itself never checks any shape. -/
def classificationShape (v : Js) : Bool :=
  (match v.getField "primaryGroup" with | some g => groupShape g | none => false) &&
  (match v.getField "alternativeGroups" with
    | some (.arr gs) => gs.all groupShape
    | _ => false)

/-- The invariant of spec sections 3 and 8 on a parsed classification
value: alternativeGroups has length at most 2 and no alternative's name
equals the primary group's name.  Also written from the spec's words, for
comparison with the source's behavior. -/
def altGroupsInvariant (v : Js) : Bool :=
  match v.getField "primaryGroup", v.getField "alternativeGroups" with
  | some p, some (.arr gs) =>
    decide (gs.length ≤ 2) && gs.all (fun gv => !(jsName gv == jsName p))
  | _, _ => false

/-- Outcome of the chat completion call of part_003 lines 223-230: the
OpenAI client throws on failure; on success the message content is a
string or null. -/
inductive ChatOutcome where
  | throws : String → ChatOutcome
  | ok : Option String → ChatOutcome

/-- Translation of classifyWithOpenAI (part_003 lines 218-248).  The
jsonParse argument is the behavior of the JavaScript JSON.parse builtin on
the returned text: none when the text is not valid JSON (JSON.parse
throws), some v when it parses to v.  Null or empty content throws
"No response from OpenAI"; a parse failure throws
"Failed to parse classification response"; a client failure is rethrown
unchanged; otherwise the parsed value is returned verbatim, with no
validation of its shape. -/
def classifyWithOpenAI (jsonParse : String → Option Js) (chat : ChatOutcome) :
    Except String Js :=
  match chat with
  | .throws m => .error m
  | .ok none => .error "No response from OpenAI"
  | .ok (some content) =>
    if content = "" then .error "No response from OpenAI"
    else
      match jsonParse content with
      | some v => .ok v
      | none => .error "Failed to parse classification response"

/-- C7 (amended): classifyWithOpenAI fails by rethrowing exactly when the
generative call throws, fails with the no-response error exactly when the
call succeeds with null or empty content, fails with the malformed-response
error exactly when the content is not valid JSON, performs no retry (each
collaborator outcome is consulted once), and on success returns the
JSON.parse result verbatim without validating the expected
ClassificationResult shape. -/
theorem classifyWithOpenAI_characterization (jsonParse : String → Option Js)
    (chat : ChatOutcome) :
    (∀ m, chat = .throws m → classifyWithOpenAI jsonParse chat = .error m) ∧
    ((chat = .ok none ∨ chat = .ok (some "")) →
      classifyWithOpenAI jsonParse chat = .error "No response from OpenAI") ∧
    (∀ c, chat = .ok (some c) → c ≠ "" →
      (jsonParse c = none →
        classifyWithOpenAI jsonParse chat =
          .error "Failed to parse classification response") ∧
      (∀ v, jsonParse c = some v → classifyWithOpenAI jsonParse chat = .ok v)) := by
  refine ⟨?_, ?_, ?_⟩
  · intro m hm
    subst hm
    rfl
  · intro hm
    rcases hm with hm | hm <;> subst hm
    · rfl
    · simp [classifyWithOpenAI]
  · intro c hc hne
    subst hc
    constructor
    · intro hp
      simp [classifyWithOpenAI, hne, hp]
    · intro v hp
      simp [classifyWithOpenAI, hne, hp]

/-- A stand-in for JSON.parse that covers the inputs of the witness and
counterexample: the text of an empty JSON object parses to the empty
object (as the real JSON.parse does), everything else is invalid. -/
def jsonParseStub : String → Option Js :=
  fun s => if s = "\x7b\x7d" then some (.obj []) else none

/-- Witness for C7 (amended): invalid JSON content produces exactly the
malformed-response error. -/
theorem classifyWithOpenAI_characterization_witness :
    classifyWithOpenAI jsonParseStub (.ok (some "nonsense")) =
      .error "Failed to parse classification response" :=
  ((classifyWithOpenAI_characterization jsonParseStub
    (.ok (some "nonsense"))).2.2 "nonsense" rfl (by decide)).1 rfl

/-- Counterexample to C7 as stated: the empty-object text is valid JSON
(JSON.parse succeeds, returning an empty object) yet is not parseable as
the expected ClassificationResult shape; classifyWithOpenAI nevertheless
succeeds and returns it, so the malformed-response failure is not
equivalent to failing the expected shape, and the success value need not be
a ClassificationResult at all. -/
theorem classifyWithOpenAI_no_shape_check_counterexample :
    classifyWithOpenAI jsonParseStub (.ok (some "\x7b\x7d")) = .ok (.obj []) ∧
      classificationShape (.obj []) = false := ⟨rfl, rfl⟩

/-- A well-shaped group record used by the C8 counterexample. -/
def securityGroupJs : Js :=
  .obj [("name", .str "Security"), ("confidence", .num 70), ("reasoning", .str "r")]

/-- A well-shaped classification whose alternativeGroups has three entries,
all naming the primary group: it violates the spec invariant. -/
def badClassificationJs : Js :=
  .obj [("primaryGroup", securityGroupJs),
        ("alternativeGroups", .arr [securityGroupJs, securityGroupJs, securityGroupJs])]

/-- A stand-in for JSON.parse mapping one fixed provider text to the
invariant-violating classification above. -/
def badParseStub : String → Option Js :=
  fun s => if s = "resp" then some badClassificationJs else none

/-- C8 (amended): every success value of the pattern classifier is exactly
what JSON.parse produced for the provider's content: no transformation and
no enforcement happens, so the alternativeGroups invariant (length at most
2, primary name absent) holds only when the provider's own output satisfies
it. -/
theorem classifyWithOpenAI_passthrough (jsonParse : String → Option Js)
    (chat : ChatOutcome) (v : Js)
    (h : classifyWithOpenAI jsonParse chat = .ok v) :
    ∃ c, chat = .ok (some c) ∧ c ≠ "" ∧ jsonParse c = some v := by
  rcases chat with m | content
  · exact absurd h (by simp [classifyWithOpenAI])
  · rcases content with _ | c
    · exact absurd h (by simp [classifyWithOpenAI])
    · by_cases hc : c = ""
      · subst hc
        exact absurd h (by simp [classifyWithOpenAI])
      · refine ⟨c, rfl, hc, ?_⟩
        unfold classifyWithOpenAI at h
        dsimp only at h
        rw [if_neg hc] at h
        rcases hp : jsonParse c with _ | v2 <;> rw [hp] at h
        · cases h
        · injection h with h
          subst h
          rfl

/-- Witness for C8 (amended): the concrete bad response is passed through. -/
theorem classifyWithOpenAI_passthrough_witness :
    ∃ c, (ChatOutcome.ok (some "resp")) = ChatOutcome.ok (some c) ∧ c ≠ "" ∧
      badParseStub c = some badClassificationJs :=
  classifyWithOpenAI_passthrough badParseStub (.ok (some "resp"))
    badClassificationJs rfl

/-- Counterexample to C8 as stated: a well-shaped provider response whose
alternativeGroups has three entries all naming the primary group is
returned verbatim by classifyWithOpenAI, so returned results do not always
satisfy the alternativeGroups invariant. -/
theorem classifyWithOpenAI_invariant_counterexample :
    classifyWithOpenAI badParseStub (.ok (some "resp")) = .ok badClassificationJs ∧
      classificationShape badClassificationJs = true ∧
      altGroupsInvariant badClassificationJs = false := ⟨rfl, rfl, rfl⟩

/-- Reads a parsed JSON value as one scored-group record through the field
accesses the handler performs (name, confidence, reasoning). -/
def decodeGroupScore (v : Js) : Option GroupScore :=
  match v.getField "name", v.getField "confidence", v.getField "reasoning" with
  | some (.str n), some (.num c), some (.str r) => some ⟨n, c, r⟩
  | _, _, _ => none

/-- Reads a parsed JSON value as the ClassificationResult record that
determineFinalRecommendation dereferences (primaryGroup.name, .confidence,
.reasoning); none models the JavaScript TypeError raised by those accesses
when the shape is absent.  The alternativeGroups field is only echoed back
in the response, so it is decoded permissively. -/
def decodeClassification (v : Js) : Option ClassificationResult :=
  match v.getField "primaryGroup" with
  | some p =>
    match decodeGroupScore p with
    | some ps =>
      some ⟨ps,
        match v.getField "alternativeGroups" with
        | some (.arr gs) => gs.filterMap decodeGroupScore
        | _ => []⟩
    | none => none
  | none => none

/-- Behavior of the collaborators during one POST request: the body parse
(request.json() may throw), the JSON.parse builtin, the chat completion
call, and the similarity classifier's collaborators. -/
structure PostEnv where
  body : ProviderOutcome (Option String × Option String)
  jsonParse : String → Option Js
  chat : ChatOutcome
  sim : SimilarityEnv

/-- The three response shapes of the POST handler (part_003 lines 395-445):
the 400 missing-subject error, a 500 error response, and the 200 combined
payload carrying the raw pattern classification, the similarity outcome and
the final recommendation. -/
inductive PostResponse where
  | badRequest : PostResponse
  | serverError : String → PostResponse
  | classified : Js → SimilarityOutcome → FinalRecommendation → PostResponse

/-- Message of the JavaScript TypeError raised when the handler
dereferences primaryGroup fields on a value without that shape; its exact
text is runtime-defined and irrelevant to the claims. -/
def typeErrorMessage : String := "TypeError"

/-- Translation of the POST handler (part_003 lines 395-445): parse the
request body, reject a missing or empty subject with the 400 response, run
the pattern classifier (whose throw escapes to the outer catch and becomes
the 500 response, before the similarity classifier is ever consulted), then
run the similarity classifier and assemble the combined response, with the
final recommendation computed by determineFinalRecommendation. -/
def POST (env : PostEnv) : PostResponse :=
  match env.body with
  | .throws m => .serverError ("Failed to classify ticket: " ++ m)
  | .ok (subjectOpt, descriptionOpt) =>
    match subjectOpt with
    | none => .badRequest
    | some subject =>
      if subject = "" then .badRequest
      else
        match classifyWithOpenAI env.jsonParse env.chat with
        | .error m => .serverError ("Failed to classify ticket: " ++ m)
        | .ok openAIClassification =>
          let vectorResults := findSimilarTickets subject (descriptionOpt.getD "") env.sim
          match decodeClassification openAIClassification with
          | some cr =>
            .classified openAIClassification vectorResults
              (determineFinalRecommendation cr vectorResults.results)
          | none => .serverError ("Failed to classify ticket: " ++ typeErrorMessage)

/-- C10: when the pattern classifier call throws, the whole request fails
with the 500 error response built from that message, and the similarity
classifier is never consulted: the response is identical under every
similarity collaborator behavior, so there is no similarity-only
degradation path even when historical data would be available. -/
theorem post_pattern_failure_gates_similarity
    (b : ProviderOutcome (Option String × Option String))
    (jsonParse : String → Option Js) (m : String) (sim sim2 : SimilarityEnv)
    (subject : String) (dOpt : Option String)
    (hbody : b = .ok (some subject, dOpt)) (hsubject : subject ≠ "") :
    POST { body := b, jsonParse := jsonParse, chat := .throws m, sim := sim } =
      .serverError ("Failed to classify ticket: " ++ m) ∧
    POST { body := b, jsonParse := jsonParse, chat := .throws m, sim := sim } =
      POST { body := b, jsonParse := jsonParse, chat := .throws m, sim := sim2 } := by
  subst hbody
  constructor <;> simp [POST, classifyWithOpenAI, hsubject]

/-- Witness for C10: a concrete request whose pattern call throws yields
the 500 response and ignores the similarity collaborators entirely. -/
theorem post_pattern_failure_gates_similarity_witness :
    POST { body := .ok (some "vpn down", some "help"), jsonParse := jsonParseStub,
           chat := .throws "quota exceeded", sim := readySimilarityEnv } =
      .serverError ("Failed to classify ticket: " ++ "quota exceeded") ∧
    POST { body := .ok (some "vpn down", some "help"), jsonParse := jsonParseStub,
           chat := .throws "quota exceeded", sim := readySimilarityEnv } =
      POST { body := .ok (some "vpn down", some "help"), jsonParse := jsonParseStub,
             chat := .throws "quota exceeded", sim := emptySearchErrorEnv } :=
  post_pattern_failure_gates_similarity
    (.ok (some "vpn down", some "help")) jsonParseStub "quota exceeded"
    readySimilarityEnv emptySearchErrorEnv "vpn down" (some "help") rfl (by decide)

/-- The neighbors of the tie-order counterexample: the group Security is
encountered first, then the all-digit group name 7. -/
def digitTieTickets : List HistoryTicket :=
  [{ assigned_group := some "Security" }, { assigned_group := some "7" }]

/-- A fully ready collaborator behavior whose search returns those two
neighbors. -/
def digitTieEnv : SimilarityEnv :=
  { tableCheck := .ok 4
    checkVectorExtension := .ok ()
    createVectorExtension := .ok ()
    checkEmbeddingColumn := .ok ()
    addEmbeddingColumn := .ok ()
    embeddingCheck := .ok [1]
    embed := fun _ => .ok [1, 0]
    matchTickets := .ok digitTieTickets }

theorem rankGroups_digitTie :
    rankGroups digitTieTickets =
      [{ name := "7", confidence := 50, count := 1 },
       { name := "Security", confidence := 50, count := 1 }] := by
  show ((jsEntries (tallyTickets digitTieTickets).1).map (fun pr =>
      ({ name := pr.1
         confidence := ((mathRound ((pr.2 : ℚ) /
             (((tallyTickets digitTieTickets).2 : ℕ) : ℚ) * 100) : ℤ) : ℚ)
         count := pr.2 } : SimilarityMatch))).mergeSort confDesc =
    [{ name := "7", confidence := 50, count := 1 },
     { name := "Security", confidence := 50, count := 1 }]
  have h1 : (tallyTickets digitTieTickets).1 = [("Security", 1), ("7", 1)] := rfl
  have h2 : jsEntries [("Security", 1), ("7", 1)] = [("7", 1), ("Security", 1)] := by
    unfold jsEntries
    rw [show ([("Security", 1), ("7", 1)] : List (String × ℕ)).filter
        (fun pr => isArrayIndexKey pr.1) = [("7", 1)] from by decide]
    rw [show ([("Security", 1), ("7", 1)] : List (String × ℕ)).filter
        (fun pr => !isArrayIndexKey pr.1) = [("Security", 1)] from by decide]
    rw [List.mergeSort_singleton]
    rfl
  have h3 : (tallyTickets digitTieTickets).2 = 2 := rfl
  rw [h1, h2]
  rw [show ([("7", 1), ("Security", 1)] : List (String × ℕ)).map (fun pr =>
      ({ name := pr.1
         confidence := ((mathRound ((pr.2 : ℚ) /
             (((tallyTickets digitTieTickets).2 : ℕ) : ℚ) * 100) : ℤ) : ℚ)
         count := pr.2 } : SimilarityMatch)) =
    [{ name := "7", confidence := 50, count := 1 },
     { name := "Security", confidence := 50, count := 1 }] from by
      simp only [List.map_cons, List.map_nil, h3]
      norm_num [mathRound]]
  refine List.mergeSort_of_sorted ?_
  decide

/-- Counterexample to C6 as stated: the neighbors are labeled Security then
the all-digit group 7, both tie at confidence 50, and the program returns 7
first (the ECMAScript enumeration of the tally object puts array-index
keys first), even though Security was encountered first among the labeled
neighbors; so ties are not always kept in first-encountered order. -/
theorem findSimilarTickets_tie_order_counterexample :
    (findSimilarTickets "srv" "down" digitTieEnv).success = true ∧
    (findSimilarTickets "srv" "down" digitTieEnv).results =
      [{ name := "7", confidence := 50, count := 1 },
       { name := "Security", confidence := 50, count := 1 }] ∧
    labelsOf digitTieTickets = ["Security", "7"] := by
  refine ⟨rfl, ?_, rfl⟩
  have hres : (findSimilarTickets "srv" "down" digitTieEnv).results =
      rankGroups digitTieTickets := rfl
  rw [hres, rankGroups_digitTie]
